import Mathlib

/-!
Shallow embedding of the Omniversal Kernel (omniversal-kernel.py and
dashboard.py).  Machine floats are modelled as rationals, timestamps
(`datetime.now()`) as a natural-number clock that advances strictly at every
suspension point, and Python dicts holding fixed keys as Lean structures.
Methods that mutate `self` become functions from the component state to a
pair of (returned value, updated state), or just the updated state.
-/

namespace Omniversal

/-- `LayerType` enum, in declaration order (6 members). -/
inductive LayerType
  | TATRAS_AI_ML
  | REAL_ESTATE
  | CRM_ANALYTICS
  | ZAKAT_AUTOMATION
  | NFT_ACHIEVEMENT
  | AUCTION_PREPARATION
deriving DecidableEq

/-- `list(LayerType)`: the enum members in declaration order. -/
def layerTypeList : List LayerType :=
  [LayerType.TATRAS_AI_ML, LayerType.REAL_ESTATE, LayerType.CRM_ANALYTICS,
   LayerType.ZAKAT_AUTOMATION, LayerType.NFT_ACHIEVEMENT, LayerType.AUCTION_PREPARATION]

/-- `DeploymentStatus` enum. -/
inductive DeploymentStatus
  | PENDING
  | DEPLOYING
  | ACTIVE
  | SYNCING
  | ERROR
deriving DecidableEq

/-- The `Layer` dataclass.  The untyped `metadata` dict carries no state any
claim observes and is omitted; `last_updated` is a clock value. -/
structure Layer where
  layer_type : LayerType
  version : String
  status : DeploymentStatus
  last_updated : Nat
deriving DecidableEq

/-- The `Artifact` dataclass.  `content` is the opaque payload string stored
under the single key "data". -/
structure Artifact where
  artifact_id : String
  layer : LayerType
  content : String
  timestamp : Nat
  delivered : Bool
deriving DecidableEq

/-- Python `f"{n:0wd}"`: decimal rendering left-padded with zeros to width w. -/
def zeroPad (w : Nat) (n : Nat) : String :=
  let s := toString n
  String.mk (List.replicate (w - s.length) '0') ++ s

/-- State of `ParallelArtifactDelivery`: owned artifact history and the
delivery counter. -/
structure ParallelArtifactDelivery where
  artifacts : List Artifact
  delivery_count : Nat
deriving DecidableEq

/-- `ParallelArtifactDelivery.__init__`. -/
def delivery_system_init : ParallelArtifactDelivery :=
  { artifacts := [], delivery_count := 0 }

/-- `deliver_artifact`: appends the artifact to the history, sets
`delivered = True`, increments the counter, returns `True`.  The appended
list element is the very object later marked delivered (Python aliasing), so
the stored record carries `delivered := true`. -/
def deliver_artifact (s : ParallelArtifactDelivery) (a : Artifact) :
    ParallelArtifactDelivery × Bool :=
  ({ artifacts := s.artifacts ++ [{ a with delivered := true }],
     delivery_count := s.delivery_count + 1 }, true)

/-- One `gather` step of `deliver_batch`: run the next delivery coroutine
(it contains no await, so the tasks run to completion in list order) and
accumulate its boolean result into the success sum. -/
def batch_step (acc : ParallelArtifactDelivery × Nat) (a : Artifact) :
    ParallelArtifactDelivery × Nat :=
  let r := deliver_artifact acc.1 a
  (r.1, acc.2 + (if r.2 then 1 else 0))

/-- The dict returned by `deliver_batch` (timestamp field omitted: no claim
observes it). -/
structure BatchResult where
  delivered : Nat
  total : Nat
deriving DecidableEq

/-- `deliver_batch`: one delivery task per artifact, gathered in order;
`delivered` is `sum(results)` and `total` is `len(artifacts)`. -/
def deliver_batch (s : ParallelArtifactDelivery) (arts : List Artifact) :
    ParallelArtifactDelivery × BatchResult :=
  let r := arts.foldl batch_step (s, 0)
  (r.1, { delivered := r.2, total := arts.length })

/-- Artifact generation inside `OmniversalKernel.deliver_artifacts_parallel`:
`Artifact(artifact_id=f"ARTIFACT-{i:08d}", layer=list(LayerType)[i % 5],
content={"data": f"payload_{i}"}, timestamp=datetime.now())` for i in
range(count).  The index `i % 5` is in range because `layerTypeList` has 6
elements, so `getD` never falls back to its default. -/
def generate_artifacts (t : Nat) (count : Nat) : List Artifact :=
  (List.range count).map (fun i =>
    { artifact_id := "ARTIFACT-" ++ zeroPad 8 i
      layer := layerTypeList.getD (i % 5) LayerType.TATRAS_AI_ML
      content := "payload_" ++ toString i
      timestamp := t
      delivered := false })

/-- `OmniversalKernel.deliver_artifacts_parallel(count)`: generate `count`
artifacts and deliver them as one batch. -/
def deliver_artifacts_parallel (s : ParallelArtifactDelivery) (t : Nat)
    (count : Nat) : ParallelArtifactDelivery × BatchResult :=
  deliver_batch s (generate_artifacts t count)

/-- The default of the `count` parameter of `deliver_artifacts_parallel`. -/
def deliver_count_default : Nat := 10

/-- `deliver_artifacts_parallel` invoked without an explicit count. -/
def deliver_artifacts_parallel_default (s : ParallelArtifactDelivery)
    (t : Nat) : ParallelArtifactDelivery × BatchResult :=
  deliver_artifacts_parallel s t deliver_count_default

/-- The explicit count `start_main_infinite` passes at its Step 4:
`deliver_artifacts_parallel(count=20)`. -/
def start_main_infinite_deliver_count : Nat := 20

theorem batch_fold_spec (arts : List Artifact) (s : ParallelArtifactDelivery)
    (c : Nat) :
    (arts.foldl batch_step (s, c)).1.delivery_count
        = s.delivery_count + arts.length ∧
    (arts.foldl batch_step (s, c)).1.artifacts
        = s.artifacts ++ arts.map (fun a => { a with delivered := true }) ∧
    (arts.foldl batch_step (s, c)).2 = c + arts.length := by
  induction arts generalizing s c with
  | nil => simp
  | cons a rest ih =>
    have h := ih { artifacts := s.artifacts ++ [{ a with delivered := true }],
                   delivery_count := s.delivery_count + 1 } (c + 1)
    simp only [List.foldl_cons, batch_step, deliver_artifact, if_true,
      List.map_cons, List.length_cons]
    refine ⟨?_, ?_, ?_⟩
    · rw [h.1]; dsimp only; omega
    · rw [h.2.1]; dsimp only; simp
    · rw [h.2.2]; omega

/-- Python `str.lower()` over the ASCII strings the bridge handles,
character by character. -/
def strLower (s : String) : String :=
  String.mk (s.data.map Char.toLower)

/-- Python `str.upper()` over the ASCII strings the bridge handles,
character by character. -/
def strUpper (s : String) : String :=
  String.mk (s.data.map Char.toUpper)

/-- State of `HelixBitcoinBridge`: the BTC/USD rate and the two bridge
counters.  The fixed `regional_multipliers` dict is a top-level association
list below; `galactic_calibration_factor` is the constant 1.0618. -/
structure HelixBitcoinBridge where
  btc_to_usd_rate : ℚ
  tokenized_btc_bricks : Nat
  total_btc_value : ℚ
  galactic_calibration_factor : ℚ
deriving DecidableEq

/-- `HelixBitcoinBridge.__init__`. -/
def bridge_init : HelixBitcoinBridge :=
  { btc_to_usd_rate := 45000
    tokenized_btc_bricks := 0
    total_btc_value := 0
    galactic_calibration_factor := 10618 / 10000 }

/-- `self.regional_multipliers = {"tokyo": 1.35, "london": 1.28}`. -/
def regional_multipliers : List (String × ℚ) :=
  [("tokyo", 135 / 100), ("london", 128 / 100)]

/-- The Bitcoin-backed Bricks asset dict returned by `convert_btc_to_bricks`
(the numeric and identifying fields; `property_details` carries the opaque
property data through). -/
structure BtcBrickAsset where
  asset_id : String
  location : String
  btc_amount : ℚ
  btc_usd_rate : ℚ
  base_usd_value : ℚ
  regional_multiplier : ℚ
  regional_value : ℚ
  galactic_calibration_factor : ℚ
  galactic_calibrated_value : ℚ
  property_details : String
deriving DecidableEq

/-- `convert_btc_to_bricks`: validates `location.lower()` against the
`regional_multipliers` dict; on an unsupported location it raises `ValueError`
before any field of `self` is written, so the bridge state is returned
unchanged with the error; otherwise it builds the asset, then increments
`tokenized_btc_bricks` and adds `btc_amount` to `total_btc_value`. -/
def convert_btc_to_bricks (s : HelixBitcoinBridge) (btc_amount : ℚ)
    (location : String) (property_data : String) :
    Except String BtcBrickAsset × HelixBitcoinBridge :=
  let location_lower := strLower location
  match regional_multipliers.lookup location_lower with
  | none =>
    (Except.error ("Unsupported location: " ++ location ++ ". Supported: Tokyo, London"), s)
  | some regional_multiplier =>
    let usd_value := btc_amount * s.btc_to_usd_rate
    let regional_value := usd_value * regional_multiplier
    let galactic_calibrated_value := regional_value * s.galactic_calibration_factor
    let asset_id := "BTC-BRICK-" ++ strUpper location_lower ++ "-"
        ++ zeroPad 8 (s.tokenized_btc_bricks + 1)
    (Except.ok
      { asset_id := asset_id
        location := location
        btc_amount := btc_amount
        btc_usd_rate := s.btc_to_usd_rate
        base_usd_value := usd_value
        regional_multiplier := regional_multiplier
        regional_value := regional_value
        galactic_calibration_factor := s.galactic_calibration_factor
        galactic_calibrated_value := galactic_calibrated_value
        property_details := property_data },
     { s with tokenized_btc_bricks := s.tokenized_btc_bricks + 1,
              total_btc_value := s.total_btc_value + btc_amount })

/-- State of `ZakatAutomationLayer`: its two counters. -/
structure ZakatAutomationLayer where
  total_zakat_processed : ℚ
  calculations_count : Nat
deriving DecidableEq

/-- `ZakatAutomationLayer.__init__`. -/
def zakat_init : ZakatAutomationLayer :=
  { total_zakat_processed := 0, calculations_count := 0 }

/-- The result dict of `calculate_zakat` (timestamp omitted). -/
structure ZakatResult where
  wealth : ℚ
  zakat_due : ℚ
  currency : String
deriving DecidableEq

/-- `calculate_zakat`: bumps `calculations_count`, computes
`zakat_amount = total_wealth * 0.025`, adds it to `total_zakat_processed`
and returns it as `zakat_due`. -/
def calculate_zakat (s : ZakatAutomationLayer) (total_wealth : ℚ)
    (currency : String) : ZakatResult × ZakatAutomationLayer :=
  let zakat_amount := total_wealth * (25 / 1000)
  ({ wealth := total_wealth, zakat_due := zakat_amount, currency := currency },
   { total_zakat_processed := s.total_zakat_processed + zakat_amount,
     calculations_count := s.calculations_count + 1 })

/-- `PerpetualDeploymentEngine.sync_all`: for each layer in order, set status
SYNCING, `await asyncio.sleep(0.1)` (one suspension, so the clock strictly
advances), set status ACTIVE and `last_updated = datetime.now()`.  The
transient SYNCING write is overwritten before the next suspension and no
other task observes it; the returned dict's `synced_layers` list is the
layers' kinds in order and carries no state.  Returns the updated layers and
the advanced clock. -/
def sync_all (t : Nat) : List Layer → List Layer × Nat
  | [] => ([], t)
  | l :: ls =>
    let synced := { l with status := DeploymentStatus.ACTIVE, last_updated := t + 1 }
    let rest := sync_all (t + 1) ls
    (synced :: rest.1, rest.2)

/-- State of `TatrasAIMLLayer`: model names and the prediction counter. -/
structure TatrasAIMLLayer where
  models : List String
  predictions_count : Nat
deriving DecidableEq

/-- `TatrasAIMLLayer.__init__`. -/
def tatras_init : TatrasAIMLLayer := { models := [], predictions_count := 0 }

/-- State of `RealEstateTokenizationLayer`. -/
structure RealEstateTokenizationLayer where
  tokenized_properties : Nat
  total_value : ℚ
deriving DecidableEq

/-- `RealEstateTokenizationLayer.__init__`. -/
def real_estate_init : RealEstateTokenizationLayer :=
  { tokenized_properties := 0, total_value := 0 }

/-- State of `CRMAnalyticsLayer`.  `total_architects` is set once in
`__init__` (to 38_000_000) and no method of the repository writes it. -/
structure CRMAnalyticsLayer where
  total_architects : Nat
  active_architects : Nat
  analytics_processed : Nat
deriving DecidableEq

/-- `CRMAnalyticsLayer.__init__`. -/
def crm_init : CRMAnalyticsLayer :=
  { total_architects := 38000000, active_architects := 0, analytics_processed := 0 }

/-- State of `NFTAchievementLayer`. -/
structure NFTAchievementLayer where
  nfts_minted : Nat
  achievements_tracked : Nat
deriving DecidableEq

/-- `NFTAchievementLayer.__init__`. -/
def nft_init : NFTAchievementLayer :=
  { nfts_minted := 0, achievements_tracked := 0 }

/-- The `DashboardMetrics` dataclass. -/
structure DashboardMetrics where
  total_architects : Nat
  active_layers : Nat
  total_artifacts : Nat
  nft_minted : Nat
  zakat_processed : ℚ
  properties_tokenized : Nat
  ai_ml_predictions : Nat
  timestamp : Nat
deriving DecidableEq

/-- State of `RealTimeDashboard`: the append-only metrics history. -/
structure RealTimeDashboard where
  metrics_history : List DashboardMetrics
deriving DecidableEq

/-- `RealTimeDashboard.__init__`. -/
def dashboard_init : RealTimeDashboard := { metrics_history := [] }

/-- `RealTimeDashboard.update_metrics`: builds a `DashboardMetrics` from the
current layer counters (with `total_artifacts=0` literally, as in the
source), appends it to the history and returns it. -/
def update_metrics (d : RealTimeDashboard) (tatras : TatrasAIMLLayer)
    (real_estate : RealEstateTokenizationLayer) (crm : CRMAnalyticsLayer)
    (zakat : ZakatAutomationLayer) (nft : NFTAchievementLayer)
    (active_layers : Nat) (t : Nat) : DashboardMetrics × RealTimeDashboard :=
  let metrics : DashboardMetrics :=
    { total_architects := crm.total_architects
      active_layers := active_layers
      total_artifacts := 0
      nft_minted := nft.nfts_minted
      zakat_processed := zakat.total_zakat_processed
      properties_tokenized := real_estate.tokenized_properties
      ai_ml_predictions := tatras.predictions_count
      timestamp := t }
  (metrics, { metrics_history := d.metrics_history ++ [metrics] })

/-- Group a reversed digit list into threes, inserting `','` — helper for
Python's `f"{n:,}"` format. -/
def groupThrees : List Char → List Char
  | c1 :: c2 :: c3 :: c4 :: rest => c1 :: c2 :: c3 :: ',' :: groupThrees (c4 :: rest)
  | l => l

/-- Python `f"{n:,}"`: decimal rendering with thousand separators. -/
def formatThousands (n : Nat) : String :=
  String.mk (groupThrees (toString n).data.reverse).reverse

/-- The dict returned by `RealTimeDashboard.get_dashboard_data`: either the
`{"status": "no_data"}` sentinel or the operational record carrying the
latest metrics and the comma-formatted architect total (the fixed
`"status": "operational"` and `"uptime": "perpetual"` strings carry no
state). -/
inductive DashboardData
  | no_data
  | operational (current_metrics : DashboardMetrics) (total_architects : String)
deriving DecidableEq

/-- `RealTimeDashboard.get_dashboard_data`: the no-data sentinel on an empty
history, otherwise the last history entry with
`f"{latest.total_architects:,}"`. -/
def get_dashboard_data (d : RealTimeDashboard) : DashboardData :=
  match d.metrics_history.getLast? with
  | none => DashboardData.no_data
  | some latest =>
    DashboardData.operational latest (formatThousands latest.total_architects)

/-- The kernel state object of `DashboardServer.load_state` (dashboard.py).
The nested dicts are association lists; their value shapes are irrelevant to
the claims, which only compare against the empty default. -/
structure KernelStateFile where
  status : String
  mode : String
  layers : List (String × String)
  systems : List (String × String)
  dashboard : List (String × String)
deriving DecidableEq

/-- The default object `load_state` returns when the file is missing. -/
def default_state : KernelStateFile :=
  { status := "standby", mode := "main-infinite", layers := [], systems := [],
    dashboard := [] }

/-- Outcome of the `open`/`read` the `try` block performs. -/
inductive ReadOutcome
  | success (content : String)
  | fileNotFound
  | ioError (msg : String)

/-- `DashboardServer.load_state`: `json.load` the file on success (the parse
may itself fail and that failure propagates — `parse` abstracts it), return
the default object on `FileNotFoundError`, and let every other I/O error
propagate uncaught. -/
def load_state (parse : String → Except String KernelStateFile) :
    ReadOutcome → Except String KernelStateFile
  | ReadOutcome.success c => parse c
  | ReadOutcome.fileNotFound => Except.ok default_state
  | ReadOutcome.ioError msg => Except.error msg

/-- A call against the `ParallelArtifactDelivery` system: either a single
`deliver_artifact` or a `deliver_batch`. -/
inductive DeliveryOp
  | one (a : Artifact)
  | batch (arts : List Artifact)

/-- Run one delivery call, keeping the updated system state. -/
def run_delivery_op (s : ParallelArtifactDelivery) : DeliveryOp → ParallelArtifactDelivery
  | DeliveryOp.one a => (deliver_artifact s a).1
  | DeliveryOp.batch arts => (deliver_batch s arts).1

/-- Run a sequence of delivery calls from a given system state. -/
def run_delivery_ops (s : ParallelArtifactDelivery) (ops : List DeliveryOp) :
    ParallelArtifactDelivery :=
  ops.foldl run_delivery_op s

/-- The invariant of claim C10: counter equals history length and every
stored artifact is marked delivered. -/
def delivery_inv (s : ParallelArtifactDelivery) : Prop :=
  s.delivery_count = s.artifacts.length ∧ ∀ a ∈ s.artifacts, a.delivered = true

/-- C1: the claim says artifact i gets the kind at index `i mod K` of the
deliverable-kind set, K its live size.  The code indexes `list(LayerType)`
(6 members) with the hard-coded `i % 5`: at count 6, artifact 5 receives
TATRAS_AI_ML (index 5 mod 5 = 0) while index 5 mod 6 = 5 of the live set is
AUCTION_PREPARATION, so the code contradicts the round-robin the spec
states and itself flags the `i % 5` constant as the bug. -/
theorem C1_round_robin_bug :
    ((generate_artifacts 0 6).map Artifact.layer).getD 5 LayerType.AUCTION_PREPARATION
        = LayerType.TATRAS_AI_ML ∧
    layerTypeList.length = 6 ∧
    layerTypeList.getD (5 % layerTypeList.length) LayerType.TATRAS_AI_ML
        = LayerType.AUCTION_PREPARATION ∧
    LayerType.TATRAS_AI_ML ≠ LayerType.AUCTION_PREPARATION := by decide

/-- C2: for every bridge state, amount and property data, a location whose
lowercasing is outside the supported set {tokyo, london} makes
`convert_btc_to_bricks` raise the validation error with both counters
(`tokenized_btc_bricks`, `total_btc_value`) unchanged, and a supported
location makes it succeed with `tokenized_btc_bricks` incremented by
exactly 1. -/
theorem C2_bridge_location_validation (s : HelixBitcoinBridge) (btc : ℚ)
    (loc pd : String) :
    (strLower loc ∉ (["tokyo", "london"] : List String) →
      (∃ e, (convert_btc_to_bricks s btc loc pd).1 = Except.error e) ∧
      (convert_btc_to_bricks s btc loc pd).2.tokenized_btc_bricks
          = s.tokenized_btc_bricks ∧
      (convert_btc_to_bricks s btc loc pd).2.total_btc_value
          = s.total_btc_value) ∧
    (strLower loc ∈ (["tokyo", "london"] : List String) →
      (∃ a, (convert_btc_to_bricks s btc loc pd).1 = Except.ok a) ∧
      (convert_btc_to_bricks s btc loc pd).2.tokenized_btc_bricks
          = s.tokenized_btc_bricks + 1) := by
  constructor
  · intro hnot
    have h1 : ¬(strLower loc = "tokyo") := fun h => hnot (by simp [h])
    have h2 : ¬(strLower loc = "london") := fun h => hnot (by simp [h])
    have hb1 : (strLower loc == "tokyo") = false := beq_eq_false_iff_ne.mpr h1
    have hb2 : (strLower loc == "london") = false := beq_eq_false_iff_ne.mpr h2
    have hl : regional_multipliers.lookup (strLower loc) = none := by
      simp [regional_multipliers, List.lookup, hb1, hb2]
    refine ⟨⟨"Unsupported location: " ++ loc ++ ". Supported: Tokyo, London", ?_⟩,
      ?_, ?_⟩ <;> simp [convert_btc_to_bricks, hl]
  · intro hmem
    have hor : strLower loc = "tokyo" ∨ strLower loc = "london" := by
      simpa using hmem
    rcases hor with h | h <;>
      simp [convert_btc_to_bricks, regional_multipliers, List.lookup, h]

/-- C2 witness: the unsupported location "paris" fails with the counters
untouched, and the supported location "Tokyo" succeeds bumping the brick
counter by one, both from the initial bridge state with 2 BTC. -/
theorem C2_bridge_location_validation_witness :
    (strLower "paris" ∉ (["tokyo", "london"] : List String) ∧
      (∃ e, (convert_btc_to_bricks bridge_init 2 "paris" "flat").1
          = Except.error e) ∧
      (convert_btc_to_bricks bridge_init 2 "paris" "flat").2.tokenized_btc_bricks
          = bridge_init.tokenized_btc_bricks ∧
      (convert_btc_to_bricks bridge_init 2 "paris" "flat").2.total_btc_value
          = bridge_init.total_btc_value) ∧
    (strLower "Tokyo" ∈ (["tokyo", "london"] : List String) ∧
      (∃ a, (convert_btc_to_bricks bridge_init 2 "Tokyo" "flat").1
          = Except.ok a) ∧
      (convert_btc_to_bricks bridge_init 2 "Tokyo" "flat").2.tokenized_btc_bricks
          = bridge_init.tokenized_btc_bricks + 1) :=
  ⟨⟨by decide,
    (C2_bridge_location_validation bridge_init 2 "paris" "flat").1 (by decide)⟩,
   ⟨by decide,
    (C2_bridge_location_validation bridge_init 2 "Tokyo" "flat").2 (by decide)⟩⟩

/-- C3 counterexample: the deliver phase invoked without an explicit count
generates 10 artifacts, not the 20 the claim states. -/
theorem C3_default_count_counterexample :
    (deliver_artifacts_parallel_default delivery_system_init 0).2.total = 10 ∧
    (deliver_artifacts_parallel_default delivery_system_init 0).1.artifacts.length
        = 10 ∧
    (10 : Nat) ≠ 20 := by decide

/-- C3 amended: the default of the `count` parameter is 10, so a call
without an explicit count generates 10 artifacts; `start_main_infinite` is
the caller that passes `count=20` explicitly, and that call generates 20. -/
theorem C3_deliver_default_amended (s : ParallelArtifactDelivery) (t : Nat) :
    deliver_count_default = 10 ∧
    (deliver_artifacts_parallel_default s t).2.total = 10 ∧
    (deliver_artifacts_parallel s t start_main_infinite_deliver_count).2.total
        = 20 := by
  refine ⟨rfl, ?_, ?_⟩ <;>
    simp [deliver_artifacts_parallel_default, deliver_artifacts_parallel,
      deliver_batch, generate_artifacts, deliver_count_default,
      start_main_infinite_deliver_count]

/-- C4: for every delivery-system state and artifact list,
`deliver_batch` returns `delivered = total = N` (N the list length) and the
delivery counter grows by exactly N. -/
theorem C4_deliver_batch_spec (s : ParallelArtifactDelivery)
    (arts : List Artifact) :
    (deliver_batch s arts).2.delivered = arts.length ∧
    (deliver_batch s arts).2.total = arts.length ∧
    (deliver_batch s arts).1.delivery_count
        = s.delivery_count + arts.length := by
  have h := batch_fold_spec arts s 0
  refine ⟨?_, rfl, ?_⟩
  · show (arts.foldl batch_step (s, 0)).2 = arts.length
    rw [h.2.2]; omega
  · show (arts.foldl batch_step (s, 0)).1.delivery_count
        = s.delivery_count + arts.length
    exact h.1

/-- C5: for every Zakat-layer state, `calculate_zakat` on total wealth
100000 returns `zakat_due = 2500` (2.5% exactly) and adds exactly 2500 to
`total_zakat_processed`. -/
theorem C5_zakat_on_100000 (s : ZakatAutomationLayer) :
    (calculate_zakat s 100000 "USD").1.zakat_due = 2500 ∧
    (calculate_zakat s 100000 "USD").2.total_zakat_processed
        = s.total_zakat_processed + 2500 := by
  constructor <;> norm_num [calculate_zakat]

/-- C6: if no layer's `last_updated` is ahead of the clock, then after
`sync_all` every layer of the list has status ACTIVE and a strictly larger
`last_updated` than before the call (stated pairwise over the updated and
the original list). -/
theorem C6_sync_all_active_fresh (t : Nat) (layers : List Layer)
    (h : ∀ l ∈ layers, l.last_updated ≤ t) :
    List.Forall₂
      (fun l2 l1 => l2.status = DeploymentStatus.ACTIVE ∧
        l1.last_updated < l2.last_updated)
      (sync_all t layers).1 layers := by
  induction layers generalizing t with
  | nil => simp [sync_all]
  | cons l ls ih =>
    dsimp only [sync_all]
    refine List.Forall₂.cons ?_ ?_
    · exact ⟨rfl, Nat.lt_succ_of_le (h l (List.mem_cons_self l ls))⟩
    · exact ih (t + 1) fun x hx => Nat.le_succ_of_le (h x (List.mem_cons_of_mem l hx))

/-- Concrete pre-sync layer for the C6 witness. -/
def c6_layer : Layer :=
  { layer_type := LayerType.TATRAS_AI_ML, version := "1.0.0",
    status := DeploymentStatus.PENDING, last_updated := 3 }

/-- C6 witness: one PENDING layer stamped 3, synced at clock 5, ends ACTIVE
with a strictly later stamp. -/
theorem C6_sync_all_active_fresh_witness :
    (∀ l ∈ [c6_layer], l.last_updated ≤ 5) ∧
    List.Forall₂
      (fun l2 l1 => l2.status = DeploymentStatus.ACTIVE ∧
        l1.last_updated < l2.last_updated)
      (sync_all 5 [c6_layer]).1 [c6_layer] :=
  ⟨by decide, C6_sync_all_active_fresh 5 [c6_layer] (by decide)⟩

/-- C7: with an empty history the dashboard query returns the no-data
sentinel; the snapshot taken by `update_metrics` (from a CRM layer holding
the fixed 38000000 architect constant) becomes the most recent record and a
following query returns exactly it, with the architect total rendered with
thousand separators as "38,000,000". -/
theorem C7_dashboard_latest (d : RealTimeDashboard) (ta : TatrasAIMLLayer)
    (re : RealEstateTokenizationLayer) (crm : CRMAnalyticsLayer)
    (z : ZakatAutomationLayer) (nf : NFTAchievementLayer) (al t : Nat)
    (hcrm : crm.total_architects = 38000000) :
    (d.metrics_history = [] → get_dashboard_data d = DashboardData.no_data) ∧
    (update_metrics d ta re crm z nf al t).1.total_architects = 38000000 ∧
    get_dashboard_data (update_metrics d ta re crm z nf al t).2 =
      DashboardData.operational (update_metrics d ta re crm z nf al t).1
        "38,000,000" := by
  refine ⟨fun hemp => ?_, hcrm, ?_⟩
  · simp [get_dashboard_data, hemp]
  · dsimp only [update_metrics, get_dashboard_data]
    rw [List.getLast?_concat]
    dsimp only
    rw [hcrm]
    congr 1

/-- C7 witness: from the freshly initialized dashboard and layers, the
pre-snapshot query is no-data and the post-snapshot query returns the
snapshot with "38,000,000". -/
theorem C7_dashboard_latest_witness :
    crm_init.total_architects = 38000000 ∧
    ((dashboard_init.metrics_history = [] →
        get_dashboard_data dashboard_init = DashboardData.no_data) ∧
     (update_metrics dashboard_init tatras_init real_estate_init crm_init
        zakat_init nft_init 6 1).1.total_architects = 38000000 ∧
     get_dashboard_data (update_metrics dashboard_init tatras_init
        real_estate_init crm_init zakat_init nft_init 6 1).2 =
       DashboardData.operational (update_metrics dashboard_init tatras_init
        real_estate_init crm_init zakat_init nft_init 6 1).1 "38,000,000") :=
  ⟨rfl, C7_dashboard_latest dashboard_init tatras_init real_estate_init
    crm_init zakat_init nft_init 6 1 rfl⟩

/-- C8: loading the persisted state file when it is missing returns exactly
the default object {status standby, mode main-infinite, empty layers,
systems and dashboard}; any other I/O failure is not caught and propagates
as the error it is. -/
theorem C8_load_state_default (parse : String → Except String KernelStateFile) :
    load_state parse ReadOutcome.fileNotFound = Except.ok default_state ∧
    default_state.status = "standby" ∧
    default_state.mode = "main-infinite" ∧
    default_state.layers = [] ∧
    default_state.systems = [] ∧
    default_state.dashboard = [] ∧
    ∀ msg, load_state parse (ReadOutcome.ioError msg) = Except.error msg :=
  ⟨rfl, rfl, rfl, rfl, rfl, rfl, fun _ => rfl⟩

/-- C9: every snapshot `update_metrics` produces (returned and appended to
the history) has `total_artifacts = 0`, whatever the layer counters and the
previous history are. -/
theorem C9_total_artifacts_always_zero (d : RealTimeDashboard)
    (ta : TatrasAIMLLayer) (re : RealEstateTokenizationLayer)
    (crm : CRMAnalyticsLayer) (z : ZakatAutomationLayer)
    (nf : NFTAchievementLayer) (al t : Nat) :
    (update_metrics d ta re crm z nf al t).1.total_artifacts = 0 ∧
    (update_metrics d ta re crm z nf al t).2.metrics_history
        = d.metrics_history ++ [(update_metrics d ta re crm z nf al t).1] :=
  ⟨rfl, rfl⟩

theorem run_delivery_op_preserves (s : ParallelArtifactDelivery)
    (op : DeliveryOp) (h : delivery_inv s) :
    delivery_inv (run_delivery_op s op) := by
  obtain ⟨h1, h2⟩ := h
  cases op with
  | one a =>
    refine ⟨?_, ?_⟩
    · simp [run_delivery_op, deliver_artifact, h1]
    · intro x hx
      simp only [run_delivery_op, deliver_artifact, List.mem_append,
        List.mem_singleton] at hx
      rcases hx with hx | hx
      · exact h2 x hx
      · subst hx; rfl
  | batch arts =>
    have hs := batch_fold_spec arts s 0
    refine ⟨?_, ?_⟩
    · show (arts.foldl batch_step (s, 0)).1.delivery_count
          = (arts.foldl batch_step (s, 0)).1.artifacts.length
      rw [hs.1, hs.2.1]
      simp [h1]
    · intro x hx
      have he : (run_delivery_op s (DeliveryOp.batch arts)).artifacts
          = s.artifacts ++ arts.map (fun a => { a with delivered := true }) :=
        hs.2.1
      rw [he] at hx
      rcases List.mem_append.1 hx with hx | hx
      · exact h2 x hx
      · rcases List.mem_map.1 hx with ⟨a, _, rfl⟩; rfl

theorem run_delivery_ops_preserves (ops : List DeliveryOp)
    (s : ParallelArtifactDelivery) (h : delivery_inv s) :
    delivery_inv (run_delivery_ops s ops) := by
  induction ops generalizing s with
  | nil => exact h
  | cons op rest ih => exact ih _ (run_delivery_op_preserves s op h)

/-- C10: after any sequence of `deliver_artifact` and `deliver_batch` calls
from the initial delivery-system state, `delivery_count` equals the length
of the owned artifact history and every stored artifact is marked
delivered. -/
theorem C10_delivery_invariant (ops : List DeliveryOp) :
    (run_delivery_ops delivery_system_init ops).delivery_count
        = (run_delivery_ops delivery_system_init ops).artifacts.length ∧
    ∀ a ∈ (run_delivery_ops delivery_system_init ops).artifacts,
      a.delivered = true :=
  run_delivery_ops_preserves ops delivery_system_init
    ⟨rfl, by simp [delivery_system_init]⟩

end Omniversal
